import Mathlib

/-!
Shallow embedding of the agent-coordination core of the repository:
`backend/app/agents/base_agent.py` (envelope/outcome data model, provider
contract) and `backend/app/agents/orchestrator.py` (`MasterOrchestrator`:
`route_message`, `execute_workflow`, `_determine_target_agent`,
`_cache_response`).

Modelling conventions:
* Python dicts become association lists (`dictGet` is `dict.get`, first
  match wins); payload values are `Nat` (the orchestrator never inspects
  payload values, only whole-dict truthiness).
* `async` methods are pure functions: the orchestrator awaits every call
  before proceeding, so the cooperative scheduling is invisible to these
  claims.
* A provider's `process` may raise: it returns `Except String AgentResponse`
  where `.error e` models an unhandled Python exception with `str(e) = e`.
* Wall-clock timing (`datetime.now()` around `process`) is modelled by an
  input `elapsed : Nat`: the measured duration of the dispatch.
* The redis client is modelled by a `CacheState` threaded through the
  router plus a `cache_fails` flag on the orchestrator saying whether
  `setex` raises; the TTL value and the `hash` in the cache key are not
  modelled (no claim depends on them).
* Which provider hooks the router actually invokes is observable through a
  trace of `Event`s emitted exactly where the source performs the calls:
  `route_message` calls `can_handle`, `process` and `_cache_response`
  (which emits `cache_attempt` on its write path).  Constructors for
  `validate_input`, `pre_process` and `post_process` calls exist so that
  claims about those hooks are statable; the source's `route_message`
  contains no such call, hence the embedding emits no such event.
-/

/-- `AgentStatus` enum from `base_agent.py`. -/
inductive AgentStatus where
  | idle
  | processing
  | completed
  | error
  | waiting
deriving DecidableEq

/-- Association-list lookup, modelling Python `dict.get` (and `d[k]`
presence tests): the first binding of the key wins. -/
def dictGet {α : Type} : List (String × α) → String → Option α
  | [], _ => none
  | (k, v) :: rest, key => if k = key then some v else dictGet rest key

/-- Payloads and results: open string-keyed maps (`Dict[str, Any]`). -/
abbrev Payload := List (String × Nat)

/-- Python `d.update(e)`: every key of `e` overwrites its binding in `d`
(in place, keeping `d`'s ordering for existing keys); keys of `e` absent
from `d` are appended. -/
def Payload.update (d e : Payload) : Payload :=
  (d.map fun kv => match dictGet e kv.1 with
    | some v => (kv.1, v)
    | none => kv)
  ++ e.filter fun kv => (dictGet d kv.1).isNone

/-- Python truthiness of an `Optional[Dict]`: `None` and `{}` are falsy. -/
def truthy : Option Payload → Bool
  | none => false
  | some d => !d.isEmpty

/-- `AgentContext` dataclass (timestamp and open metadata omitted: no
claim reads them). -/
structure AgentContext where
  user_id : String
  session_id : String
  request_id : String
deriving DecidableEq

/-- `AgentMessage` dataclass (the spec's Envelope).  `timestamp` and the
uuid `message_id` are nondeterministic fresh values not read by the
orchestrator and are omitted. -/
structure AgentMessage where
  from_agent : String
  to_agent : String
  message_type : String
  payload : Payload
  context : AgentContext
deriving DecidableEq

/-- `AgentResponse` dataclass (the spec's Outcome).  `execution_time` is a
`Nat` duration; `metadata` is a string-keyed map of strings (the only
value the source ever stores there is the string `type(error).__name__`). -/
structure AgentResponse where
  agent_name : String
  status : AgentStatus
  result : Option Payload := none
  error : Option String := none
  execution_time : Option Nat := none
  metadata : List (String × String) := []
  next_actions : List String := []
deriving DecidableEq

/-- A registered `BaseAgent`: the concrete subclass supplies
`validate_input` and `process`; `can_handle` is the base-class membership
test.  `process` returning `.error e` models an unhandled raised fault. -/
structure BaseAgent where
  name : String
  version : String := "1.0.0"
  capabilities : List String
  validate_input : AgentMessage → Bool
  process : AgentMessage → Except String AgentResponse

/-- `BaseAgent.can_handle`: membership of the message type in
`capabilities`. -/
def BaseAgent.can_handle (a : BaseAgent) (message_type : String) : Bool :=
  a.capabilities.contains message_type

/-- `BaseAgent.pre_process`: logs and returns the message unchanged. -/
def BaseAgent.pre_process (_a : BaseAgent) (m : AgentMessage) : AgentMessage := m

/-- `BaseAgent.post_process`: logs and returns the response unchanged. -/
def BaseAgent.post_process (_a : BaseAgent) (r : AgentResponse) : AgentResponse := r

/-- `BaseAgent.handle_error`: builds an Error response whose metadata
carries `error_type`.  (Defined by the source but never called by the
orchestrator's router.) -/
def BaseAgent.handle_error (a : BaseAgent) (errStr errType : String) : AgentResponse :=
  { agent_name := a.name
    status := .error
    error := some errStr
    metadata := [("error_type", errType)] }

/-- One observable hook/collaborator invocation performed by the router. -/
inductive Event where
  | can_handle_call (agent : String) (message_type : String)
  | process_call (agent : String) (m : AgentMessage)
  | validate_input_call (agent : String) (m : AgentMessage)
  | pre_process_call (agent : String) (m : AgentMessage)
  | post_process_call (agent : String) (r : AgentResponse)
  | cache_attempt (message_type : String)
deriving DecidableEq

/-- The redis cache contents: cache key to stored result.  (The stored
`cache_data` also carries a timestamp and the producer name; only the
result matters to the claims.) -/
abbrev CacheState := List (String × Payload)

/-- Cache key `f"response:{message_type}:{hash(str(payload))}"`; the
`hash` component is not modelled. -/
def cache_key (m : AgentMessage) : String :=
  "response:" ++ m.message_type

/-- `MasterOrchestrator` state: registry, routing table, workflow table,
and whether the redis `setex` call raises (`cache_fails`). -/
structure MasterOrchestrator where
  name : String := "master_orchestrator"
  agents : List (String × BaseAgent)
  routing_rules : List (String × String) :=
    [("profile_analysis", "profiling_agent"),
     ("generate_learning_path", "learning_path_agent"),
     ("curate_content", "content_curator_agent"),
     ("track_progress", "progress_tracker_agent"),
     ("motivational_support", "motivation_coach_agent"),
     ("assess_skills", "assessment_agent"),
     ("industry_insights", "industry_intelligence_agent")]
  workflows : List (String × List String) :=
    [("new_user_onboarding",
      ["profile_analysis", "generate_learning_path", "curate_content"]),
     ("progress_check",
      ["track_progress", "assess_skills", "motivational_support"]),
     ("path_adaptation",
      ["track_progress", "profile_analysis", "generate_learning_path"])]
  cache_fails : Bool := false

/-- `MasterOrchestrator._determine_target_agent`:
`self.routing_rules.get(message.message_type)`. -/
def MasterOrchestrator.determine_target_agent (o : MasterOrchestrator)
    (m : AgentMessage) : Option String :=
  dictGet o.routing_rules m.message_type

/-- `MasterOrchestrator._cache_response`: when the response is COMPLETED
with a truthy result, attempt `setex` (a raising `setex` is caught and
only logged); otherwise do nothing.  Returns the new cache plus the
emitted events. -/
def MasterOrchestrator.cache_response (o : MasterOrchestrator)
    (cache : CacheState) (m : AgentMessage) (r : AgentResponse) :
    CacheState × List Event :=
  if r.status = .completed ∧ truthy r.result then
    if o.cache_fails then
      (cache, [.cache_attempt m.message_type])
    else
      ((cache_key m, r.result.getD []) :: cache, [.cache_attempt m.message_type])
  else
    (cache, [])

/-- `MasterOrchestrator.route_message`.  Returns the response, the cache
after the best-effort write, and the trace of hook invocations.  The
source's outer `try` converts an exception raised by `process` into a
`"Routing error: ..."` response; every other path is non-raising. -/
def MasterOrchestrator.route_message (o : MasterOrchestrator) (elapsed : Nat)
    (cache : CacheState) (m : AgentMessage) :
    AgentResponse × CacheState × List Event :=
  match o.determine_target_agent m with
  | none =>
      ({ agent_name := o.name, status := .error,
         error := some ("No agent found for message type: " ++ m.message_type) },
       cache, [])
  | some target_agent_name =>
    match dictGet o.agents target_agent_name with
    | none =>
        ({ agent_name := o.name, status := .error,
           error := some ("Target agent not available: " ++ target_agent_name) },
         cache, [])
    | some target_agent =>
      if ¬ target_agent.can_handle m.message_type then
        ({ agent_name := o.name, status := .error,
           error := some ("Agent " ++ target_agent_name ++ " cannot handle "
                          ++ m.message_type) },
         cache, [.can_handle_call target_agent_name m.message_type])
      else
        match target_agent.process m with
        | .error e =>
            ({ agent_name := o.name, status := .error,
               error := some ("Routing error: " ++ e) },
             cache,
             [.can_handle_call target_agent_name m.message_type,
              .process_call target_agent_name m])
        | .ok response =>
            let response' := { response with execution_time := some elapsed }
            let (cache', cacheEvents) := o.cache_response cache m response'
            (response', cache',
             [.can_handle_call target_agent_name m.message_type,
              .process_call target_agent_name m] ++ cacheEvents)

/-- The merge of a non-error step's result into the working data
(`orchestrator.py` lines 181-183): `if response.result:
current_data.update(response.result)`. -/
def merge_result (data : Payload) (r : AgentResponse) : Payload :=
  if truthy r.result then Payload.update data (r.result.getD []) else data

/-- The envelope built for one workflow step (`orchestrator.py` lines
158-164): fresh message addressed `"auto_route"`, payload = current
working data. -/
def step_message (o : MasterOrchestrator) (ctx : AgentContext)
    (step : String) (data : Payload) : AgentMessage :=
  { from_agent := o.name
    to_agent := "auto_route"
    message_type := step
    payload := data
    context := ctx }

/-- The `for step in workflow_steps` loop of `execute_workflow`: route
each step, append the response, stop after an Error response, otherwise
merge the result into the working data and continue.  Returns the
response list, the final working data, the final cache and the trace.
(The loop's own `try` is unreachable in the model: `route_message`
catches every provider fault itself.) -/
def run_steps (o : MasterOrchestrator) (elapsed : Nat) (ctx : AgentContext) :
    List String → Payload → CacheState →
    List AgentResponse × Payload × CacheState × List Event
  | [], data, cache => ([], data, cache, [])
  | step :: rest, data, cache =>
    let (response, cache', ev) :=
      o.route_message elapsed cache (step_message o ctx step data)
    if response.status = .error then
      ([response], data, cache', ev)
    else
      let data' := merge_result data response
      let (responses, dataFin, cacheFin, evs) :=
        run_steps o elapsed ctx rest data' cache'
      (response :: responses, dataFin, cacheFin, ev ++ evs)

/-- `MasterOrchestrator.execute_workflow`: unknown workflow names raise
`ValueError` (modelled by `Except.error`) before any step is dispatched;
otherwise run the steps on a copy of `initial_data`. -/
def MasterOrchestrator.execute_workflow (o : MasterOrchestrator)
    (elapsed : Nat) (workflow_name : String) (ctx : AgentContext)
    (initial_data : Payload) (cache : CacheState) :
    Except String (List AgentResponse × Payload × CacheState × List Event) :=
  match dictGet o.workflows workflow_name with
  | none => .error ("Unknown workflow: " ++ workflow_name)
  | some workflow_steps =>
      .ok (run_steps o elapsed ctx workflow_steps initial_data cache)

/-! ### Concrete fixtures used by counterexamples and witnesses -/

/-- A context used by concrete dispatches. -/
def ctx0 : AgentContext :=
  { user_id := "u1", session_id := "s1", request_id := "r1" }

/-- A profiling provider that completes with result `{b: 2}`. -/
def profiler_ok : BaseAgent :=
  { name := "profiling_agent"
    capabilities := ["profile_analysis"]
    validate_input := fun _ => true
    process := fun _ =>
      .ok { agent_name := "profiling_agent", status := .completed,
            result := some [("b", 2)] } }

/-- A profiling provider that completes but whose `validate_input`
rejects every message. -/
def profiler_rejecting : BaseAgent :=
  { profiler_ok with validate_input := fun _ => false }

/-- A profiling provider whose `process` raises an unhandled fault. -/
def profiler_raising : BaseAgent :=
  { name := "profiling_agent"
    capabilities := ["profile_analysis"]
    validate_input := fun _ => true
    process := fun _ => .error "boom" }

/-- A profiling provider that returns WAITING (not COMPLETED, not ERROR)
with a non-empty result. -/
def profiler_waiting : BaseAgent :=
  { profiler_ok with
    process := fun _ =>
      .ok { agent_name := "profiling_agent", status := .waiting,
            result := some [("b", 2)] } }

/-- A learning-path provider that completes, echoing nothing. -/
def pathgen_ok : BaseAgent :=
  { name := "learning_path_agent"
    capabilities := ["generate_learning_path"]
    validate_input := fun _ => true
    process := fun _ =>
      .ok { agent_name := "learning_path_agent", status := .completed,
            result := some [("path", 7)] } }

/-- A learning-path provider whose `process` raises, so that its routed
response has status ERROR. -/
def pathgen_failing : BaseAgent :=
  { pathgen_ok with process := fun _ => .error "llm down" }

/-- A second registered provider, never named by the routing table. -/
def other_agent : BaseAgent :=
  { name := "other_agent"
    capabilities := ["profile_analysis"]
    validate_input := fun _ => true
    process := fun _ =>
      .ok { agent_name := "other_agent", status := .completed,
            result := some [("fromOther", 1)] } }

/-- A content-curation provider that completes. -/
def curator_ok : BaseAgent :=
  { name := "content_curator_agent"
    capabilities := ["curate_content"]
    validate_input := fun _ => true
    process := fun _ =>
      .ok { agent_name := "content_curator_agent", status := .completed,
            result := some [("content", 9)] } }

/-- A plain dispatch message addressed by the auto-route sentinel. -/
def msg0 : AgentMessage :=
  { from_agent := "caller"
    to_agent := "auto_route"
    message_type := "profile_analysis"
    payload := [("a", 1)]
    context := ctx0 }

/-- A message whose `to` field names a concrete provider (not the
sentinel), used to test whether routing honours `to`. -/
def m1 : AgentMessage :=
  { msg0 with to_agent := "other_agent" }

/-- Orchestrator with two registered providers; the routing table binds
`profile_analysis` to `profiling_agent`. -/
def o1 : MasterOrchestrator :=
  { agents := [("profiling_agent", profiler_ok), ("other_agent", other_agent)] }

/-- Orchestrator whose profiling provider rejects every input in
`validate_input`. -/
def o2 : MasterOrchestrator :=
  { agents := [("profiling_agent", profiler_rejecting)] }

/-- Orchestrator with one well-behaved profiling provider. -/
def o3 : MasterOrchestrator :=
  { agents := [("profiling_agent", profiler_ok)] }

/-- Orchestrator able to run `new_user_onboarding` fully. -/
def o4 : MasterOrchestrator :=
  { agents := [("profiling_agent", profiler_ok),
               ("learning_path_agent", pathgen_ok),
               ("content_curator_agent", curator_ok)] }

/-- Orchestrator whose second onboarding step fails. -/
def o5 : MasterOrchestrator :=
  { agents := [("profiling_agent", profiler_ok),
               ("learning_path_agent", pathgen_failing),
               ("content_curator_agent", curator_ok)] }

/-- Orchestrator whose profiling provider raises. -/
def o6 : MasterOrchestrator :=
  { agents := [("profiling_agent", profiler_raising)] }

/-- Orchestrator whose profiling provider answers WAITING with a result,
plus a two-step workflow `"wf"`. -/
def o7 : MasterOrchestrator :=
  { agents := [("profiling_agent", profiler_waiting),
               ("learning_path_agent", pathgen_ok)]
    workflows := [("wf", ["profile_analysis", "generate_learning_path"])] }

/-! ### Helper lemmas -/

/-- Lookup distributes over append, first list winning. -/
theorem dictGet_append {α : Type} (xs ys : List (String × α)) (k : String) :
    dictGet (xs ++ ys) k =
      match dictGet xs k with
      | some v => some v
      | none => dictGet ys k := by
  induction xs with
  | nil => simp [dictGet]
  | cons kv rest ih =>
      obtain ⟨k0, v0⟩ := kv
      by_cases h : k0 = k
      · simp [dictGet, h]
      · simp [dictGet, h, ih]

/-- Lookup in the overwrite part of `Payload.update`. -/
theorem dictGet_map_overwrite (d e : Payload) (k : String) :
    dictGet (d.map fun kv => match dictGet e kv.1 with
      | some v => (kv.1, v)
      | none => kv) k =
      match dictGet d k with
      | some v =>
        match dictGet e k with
        | some w => some w
        | none => some v
      | none => none := by
  induction d with
  | nil => simp [dictGet]
  | cons kv rest ih =>
      obtain ⟨k0, v0⟩ := kv
      by_cases h : k0 = k
      · subst h
        cases he : dictGet e k0 <;> simp [dictGet, he]
      · cases he : dictGet e k0 <;> simp [dictGet, he, h, ih]

/-- Lookup in the append part of `Payload.update`. -/
theorem dictGet_filter_isNone (d e : Payload) (k : String) :
    dictGet (e.filter fun kv => (dictGet d kv.1).isNone) k =
      if (dictGet d k).isNone then dictGet e k else none := by
  induction e with
  | nil => simp [dictGet]
  | cons kv rest ih =>
      obtain ⟨k0, v0⟩ := kv
      by_cases h : k0 = k
      · subst h
        cases hd : (dictGet d k0).isNone <;>
          simp [dictGet, List.filter, hd, ih]
      · cases hd : (dictGet d k0).isNone <;>
          simp [dictGet, List.filter, hd, h, ih]

/-- `Payload.update` has Python `dict.update` lookup semantics: keys of
`e` overwrite, all other keys of `d` are preserved. -/
theorem dictGet_update (d e : Payload) (k : String) :
    dictGet (Payload.update d e) k =
      match dictGet e k with
      | some v => some v
      | none => dictGet d k := by
  unfold Payload.update
  rw [dictGet_append, dictGet_map_overwrite, dictGet_filter_isNone]
  cases hd : dictGet d k <;> cases he : dictGet e k <;> simp [hd, he]

/-- A non-empty result dict is truthy. -/
theorem truthy_some_of_ne_nil (res : Payload) (h : res ≠ []) :
    truthy (some res) = true := by
  cases res with
  | nil => exact absurd rfl h
  | cons a l => simp [truthy]

/-- On a response with non-empty result, the workflow merge is exactly
`dict.update`. -/
theorem merge_result_eq (data : Payload) (r : AgentResponse) (res : Payload)
    (h1 : r.result = some res) (h2 : res ≠ []) :
    merge_result data r = Payload.update data res := by
  simp [merge_result, h1, truthy_some_of_ne_nil res h2]

/-- Evaluation of `route_message` on the successful-dispatch path. -/
theorem route_message_ok (o : MasterOrchestrator) (elapsed : Nat)
    (cache : CacheState) (m : AgentMessage) (tname : String)
    (agent : BaseAgent) (r : AgentResponse)
    (h1 : dictGet o.routing_rules m.message_type = some tname)
    (h2 : dictGet o.agents tname = some agent)
    (h3 : agent.can_handle m.message_type = true)
    (h4 : agent.process m = .ok r) :
    o.route_message elapsed cache m =
      ({ r with execution_time := some elapsed },
       (o.cache_response cache m { r with execution_time := some elapsed }).1,
       [.can_handle_call tname m.message_type, .process_call tname m]
         ++ (o.cache_response cache m { r with execution_time := some elapsed }).2) := by
  simp [MasterOrchestrator.route_message,
        MasterOrchestrator.determine_target_agent, h1, h2, h3, h4]

/-- Evaluation of `route_message` when the provider raises: the fault is
converted, not propagated, and no metadata is attached. -/
theorem route_message_raise (o : MasterOrchestrator) (elapsed : Nat)
    (cache : CacheState) (m : AgentMessage) (tname : String)
    (agent : BaseAgent) (e : String)
    (h1 : dictGet o.routing_rules m.message_type = some tname)
    (h2 : dictGet o.agents tname = some agent)
    (h3 : agent.can_handle m.message_type = true)
    (h4 : agent.process m = .error e) :
    o.route_message elapsed cache m =
      ({ agent_name := o.name, status := .error,
         error := some ("Routing error: " ++ e) },
       cache,
       [.can_handle_call tname m.message_type, .process_call tname m]) := by
  simp [MasterOrchestrator.route_message,
        MasterOrchestrator.determine_target_agent, h1, h2, h3, h4]

/-- A resolved, registered, capable provider always has its `process`
invoked (whether it returns or raises). -/
theorem route_message_process_called (o : MasterOrchestrator) (elapsed : Nat)
    (cache : CacheState) (m : AgentMessage) (tname : String) (agent : BaseAgent)
    (h1 : dictGet o.routing_rules m.message_type = some tname)
    (h2 : dictGet o.agents tname = some agent)
    (h3 : agent.can_handle m.message_type = true) :
    Event.process_call tname m ∈ (o.route_message elapsed cache m).2.2 := by
  cases h4 : agent.process m with
  | ok r =>
      rw [route_message_ok o elapsed cache m tname agent r h1 h2 h3 h4]
      simp
  | error e =>
      rw [route_message_raise o elapsed cache m tname agent e h1 h2 h3 h4]
      simp

/-- Every event the router emits is a `can_handle` call, a `process` call
on the routed message, or a cache attempt: the router performs no other
hook invocation. -/
theorem route_message_trace_mem (o : MasterOrchestrator) (elapsed : Nat)
    (cache : CacheState) (m : AgentMessage) (e : Event)
    (he : e ∈ (o.route_message elapsed cache m).2.2) :
    (∃ a t, e = .can_handle_call a t) ∨ (∃ a, e = .process_call a m) ∨
    (∃ t, e = .cache_attempt t) := by
  unfold MasterOrchestrator.route_message at he
  split at he
  · simp at he
  · split at he
    · simp at he
    · split at he
      · simp at he
        subst he
        exact Or.inl ⟨_, _, rfl⟩
      · split at he
        · simp at he
          rcases he with h | h
          · subst h; exact Or.inl ⟨_, _, rfl⟩
          · subst h; exact Or.inr (Or.inl ⟨_, rfl⟩)
        · simp only [MasterOrchestrator.cache_response] at he
          split at he
          · split at he <;>
            · simp at he
              rcases he with h | h | h
              · subst h; exact Or.inl ⟨_, _, rfl⟩
              · subst h; exact Or.inr (Or.inl ⟨_, rfl⟩)
              · subst h; exact Or.inr (Or.inr ⟨_, rfl⟩)
          · simp at he
            rcases he with h | h
            · subst h; exact Or.inl ⟨_, _, rfl⟩
            · subst h; exact Or.inr (Or.inl ⟨_, rfl⟩)

/-! ### Claim C1 -/

/-- Claim C1, as stated, is false: for the envelope `m1`, whose `to`
field is `"other_agent"` (not the sentinel), the router still consults
the routing table and dispatches to `profiling_agent` — the provider
registered under `m1.to_agent` is never invoked. -/
theorem c1_counterexample :
    m1.to_agent ≠ "auto-route" ∧
    m1.to_agent = "other_agent" ∧
    o1.determine_target_agent m1 = some "profiling_agent" ∧
    (o1.route_message 0 [] m1).2.2 =
      [.can_handle_call "profiling_agent" "profile_analysis",
       .process_call "profiling_agent" m1,
       .cache_attempt "profile_analysis"] ∧
    Event.process_call "other_agent" m1 ∉ (o1.route_message 0 [] m1).2.2 := by
  refine ⟨by decide, rfl, rfl, rfl, by decide⟩

/-- Claim C1 amended: the router resolves the target solely from the
routing table keyed by the operation — the `to` field is ignored even
when it is not the sentinel — and dispatches to the provider registered
under the resolved name; when the table has no entry the router returns
an Error outcome without touching any provider. -/
theorem c1_routing_table_only (o : MasterOrchestrator) (m : AgentMessage)
    (t' : String) :
    o.determine_target_agent { m with to_agent := t' } =
      dictGet o.routing_rules m.message_type ∧
    (∀ elapsed cache tname agent,
      dictGet o.routing_rules m.message_type = some tname →
      dictGet o.agents tname = some agent →
      agent.can_handle m.message_type = true →
      Event.process_call tname m ∈ (o.route_message elapsed cache m).2.2) ∧
    (∀ elapsed cache,
      dictGet o.routing_rules m.message_type = none →
      (o.route_message elapsed cache m).1 =
        { agent_name := o.name, status := .error,
          error := some ("No agent found for message type: " ++ m.message_type) } ∧
      (o.route_message elapsed cache m).2.2 = []) := by
  refine ⟨rfl, ?_, ?_⟩
  · intro elapsed cache tname agent h1 h2 h3
    exact route_message_process_called o elapsed cache m tname agent h1 h2 h3
  · intro elapsed cache h1
    constructor <;>
      simp [MasterOrchestrator.route_message,
            MasterOrchestrator.determine_target_agent, h1]

/-- Witness for `c1_routing_table_only` at the concrete orchestrator
`o1` and envelope `m1`. -/
theorem c1_witness :
    Event.process_call "profiling_agent" m1 ∈ (o1.route_message 0 [] m1).2.2 :=
  (c1_routing_table_only o1 m1 "x").2.1 0 [] "profiling_agent" profiler_ok
    rfl rfl rfl

/-! ### Claim C2 -/

/-- Claim C2, as stated, is false: `profiler_rejecting.validate_input`
returns false on `msg0`, yet the router invokes its `process` and
returns the provider's COMPLETED outcome, not a validation-error
outcome. -/
theorem c2_counterexample :
    profiler_rejecting.validate_input msg0 = false ∧
    Event.process_call "profiling_agent" msg0 ∈ (o2.route_message 0 [] msg0).2.2 ∧
    (o2.route_message 0 [] msg0).1.status = .completed := by
  refine ⟨rfl, by decide, rfl⟩

/-- Claim C2 amended: the router never consults `validate_input` at all
(no dispatch path invokes it), and a resolved, registered, capable
provider has its `process` invoked even when its `validate_input`
returns false on the envelope. -/
theorem c2_validate_never_consulted (o : MasterOrchestrator) (elapsed : Nat)
    (cache : CacheState) (m : AgentMessage) :
    (∀ a msg, Event.validate_input_call a msg ∉ (o.route_message elapsed cache m).2.2) ∧
    (∀ tname agent,
      dictGet o.routing_rules m.message_type = some tname →
      dictGet o.agents tname = some agent →
      agent.can_handle m.message_type = true →
      agent.validate_input m = false →
      Event.process_call tname m ∈ (o.route_message elapsed cache m).2.2) := by
  constructor
  · intro a msg hmem
    rcases route_message_trace_mem o elapsed cache m _ hmem with ⟨_, _, h⟩ | ⟨_, h⟩ | ⟨_, h⟩ <;>
      cases h
  · intro tname agent h1 h2 h3 _
    exact route_message_process_called o elapsed cache m tname agent h1 h2 h3

/-- Witness for `c2_validate_never_consulted` at the concrete
orchestrator `o2` (whose provider rejects every input) and envelope
`msg0`. -/
theorem c2_witness :
    Event.validate_input_call "profiling_agent" msg0 ∉
      (o2.route_message 0 [] msg0).2.2 ∧
    Event.process_call "profiling_agent" msg0 ∈ (o2.route_message 0 [] msg0).2.2 :=
  ⟨(c2_validate_never_consulted o2 0 [] msg0).1 "profiling_agent" msg0,
   (c2_validate_never_consulted o2 0 [] msg0).2 "profiling_agent"
     profiler_rejecting rfl rfl rfl rfl⟩

/-! ### Claim C3 -/

/-- Claim C3, as stated, is false: on a dispatch that reaches the
capable provider `profiling_agent`, the router's full invocation trace
is `can_handle`, `process`, cache attempt — it contains no `pre_process`
invocation on the envelope and no `post_process` invocation on the
returned outcome. -/
theorem c3_counterexample :
    (o3.route_message 5 [] msg0).2.2 =
      [.can_handle_call "profiling_agent" "profile_analysis",
       .process_call "profiling_agent" msg0,
       .cache_attempt "profile_analysis"] ∧
    Event.pre_process_call "profiling_agent" msg0 ∉
      (o3.route_message 5 [] msg0).2.2 ∧
    Event.post_process_call "profiling_agent" ((o3.route_message 5 [] msg0).1) ∉
      (o3.route_message 5 [] msg0).2.2 := by
  refine ⟨rfl, by decide, by decide⟩

/-- Claim C3 amended: on a successful dispatch the router invokes
`process` and populates the outcome's `execution_time` with the measured
duration, but it invokes neither `pre_process` nor `post_process` — those
hooks exist on the provider and are never called by the router. -/
theorem c3_timing_without_hooks (o : MasterOrchestrator) (elapsed : Nat)
    (cache : CacheState) (m : AgentMessage) (tname : String)
    (agent : BaseAgent) (r : AgentResponse)
    (h1 : dictGet o.routing_rules m.message_type = some tname)
    (h2 : dictGet o.agents tname = some agent)
    (h3 : agent.can_handle m.message_type = true)
    (h4 : agent.process m = .ok r) :
    (o.route_message elapsed cache m).1 = { r with execution_time := some elapsed } ∧
    Event.process_call tname m ∈ (o.route_message elapsed cache m).2.2 ∧
    (∀ a msg, Event.pre_process_call a msg ∉ (o.route_message elapsed cache m).2.2) ∧
    (∀ a resp, Event.post_process_call a resp ∉ (o.route_message elapsed cache m).2.2) := by
  refine ⟨?_, route_message_process_called o elapsed cache m tname agent h1 h2 h3, ?_, ?_⟩
  · rw [route_message_ok o elapsed cache m tname agent r h1 h2 h3 h4]
  · intro a msg hmem
    rcases route_message_trace_mem o elapsed cache m _ hmem with ⟨_, _, h⟩ | ⟨_, h⟩ | ⟨_, h⟩ <;>
      cases h
  · intro a resp hmem
    rcases route_message_trace_mem o elapsed cache m _ hmem with ⟨_, _, h⟩ | ⟨_, h⟩ | ⟨_, h⟩ <;>
      cases h

/-- Witness for `c3_timing_without_hooks` at `o3`, `msg0`, duration 5. -/
theorem c3_witness :
    (o3.route_message 5 [] msg0).1 =
      { agent_name := "profiling_agent", status := .completed,
        result := some [("b", 2)], execution_time := some 5 } ∧
    Event.process_call "profiling_agent" msg0 ∈ (o3.route_message 5 [] msg0).2.2 ∧
    Event.pre_process_call "profiling_agent" msg0 ∉ (o3.route_message 5 [] msg0).2.2 ∧
    Event.post_process_call "profiling_agent"
      ((o3.route_message 5 [] msg0).1) ∉ (o3.route_message 5 [] msg0).2.2 :=
  ⟨(c3_timing_without_hooks o3 5 [] msg0 "profiling_agent" profiler_ok
      { agent_name := "profiling_agent", status := .completed,
        result := some [("b", 2)] } rfl rfl rfl rfl).1,
   (c3_timing_without_hooks o3 5 [] msg0 "profiling_agent" profiler_ok
      { agent_name := "profiling_agent", status := .completed,
        result := some [("b", 2)] } rfl rfl rfl rfl).2.1,
   (c3_timing_without_hooks o3 5 [] msg0 "profiling_agent" profiler_ok
      { agent_name := "profiling_agent", status := .completed,
        result := some [("b", 2)] } rfl rfl rfl rfl).2.2.1 "profiling_agent" msg0,
   (c3_timing_without_hooks o3 5 [] msg0 "profiling_agent" profiler_ok
      { agent_name := "profiling_agent", status := .completed,
        result := some [("b", 2)] } rfl rfl rfl rfl).2.2.2 "profiling_agent" _⟩

/-! ### Claim C6 -/

/-- Claim C6, as stated, is false in its metadata clause: when the
provider raises, the router returns an Error outcome whose `metadata` is
empty — no `errorType` classification is attached. -/
theorem c6_counterexample :
    (o6.route_message 0 [] msg0).1.status = .error ∧
    (o6.route_message 0 [] msg0).1.error = some "Routing error: boom" ∧
    (o6.route_message 0 [] msg0).1.metadata = [] := by
  refine ⟨rfl, rfl, rfl⟩

/-- Claim C6 amended: an unhandled provider fault is not propagated: the
router returns an outcome with status Error and error string
`"Routing error: <fault>"`, produced by the orchestrator itself, with
empty metadata (the `error_type` classification lives only in
`BaseAgent.handle_error`, which the router never calls). -/
theorem c6_fault_to_error_outcome (o : MasterOrchestrator) (elapsed : Nat)
    (cache : CacheState) (m : AgentMessage) (tname : String)
    (agent : BaseAgent) (e : String)
    (h1 : dictGet o.routing_rules m.message_type = some tname)
    (h2 : dictGet o.agents tname = some agent)
    (h3 : agent.can_handle m.message_type = true)
    (h4 : agent.process m = .error e) :
    (o.route_message elapsed cache m).1 =
      { agent_name := o.name, status := .error,
        error := some ("Routing error: " ++ e) } ∧
    (o.route_message elapsed cache m).1.metadata = [] := by
  rw [route_message_raise o elapsed cache m tname agent e h1 h2 h3 h4]
  exact ⟨rfl, rfl⟩

/-- Witness for `c6_fault_to_error_outcome` at `o6`, `msg0`. -/
theorem c6_witness :
    (o6.route_message 0 [] msg0).1 =
      { agent_name := "master_orchestrator", status := .error,
        error := some "Routing error: boom" } ∧
    (o6.route_message 0 [] msg0).1.metadata = [] :=
  ⟨(c6_fault_to_error_outcome o6 0 [] msg0 "profiling_agent" profiler_raising
      "boom" rfl rfl rfl rfl).1,
   (c6_fault_to_error_outcome o6 0 [] msg0 "profiling_agent" profiler_raising
      "boom" rfl rfl rfl rfl).2⟩

/-- Unfolding `run_steps` on a step whose routed response is not an
Error: the response is appended and the merged data feeds the rest. -/
theorem run_steps_cons_ok (o : MasterOrchestrator) (elapsed : Nat)
    (ctx : AgentContext) (step : String) (rest : List String) (data : Payload)
    (cache : CacheState) (r : AgentResponse) (c' : CacheState) (ev : List Event)
    (h : o.route_message elapsed cache (step_message o ctx step data) = (r, c', ev))
    (hst : r.status ≠ .error) :
    run_steps o elapsed ctx (step :: rest) data cache =
      (r :: (run_steps o elapsed ctx rest (merge_result data r) c').1,
       (run_steps o elapsed ctx rest (merge_result data r) c').2.1,
       (run_steps o elapsed ctx rest (merge_result data r) c').2.2.1,
       ev ++ (run_steps o elapsed ctx rest (merge_result data r) c').2.2.2) := by
  simp only [run_steps, h]
  rw [if_neg hst]

/-- Unfolding `run_steps` on a step whose routed response is an Error:
the loop stops with the failing response appended and the remaining
steps untouched. -/
theorem run_steps_cons_error (o : MasterOrchestrator) (elapsed : Nat)
    (ctx : AgentContext) (step : String) (rest : List String) (data : Payload)
    (cache : CacheState) (r : AgentResponse) (c' : CacheState) (ev : List Event)
    (h : o.route_message elapsed cache (step_message o ctx step data) = (r, c', ev))
    (hst : r.status = .error) :
    run_steps o elapsed ctx (step :: rest) data cache = ([r], data, c', ev) := by
  simp only [run_steps, h]
  rw [if_pos hst]

/-- Any event emitted while routing the first step appears in the trace
of the whole loop. -/
theorem run_steps_head_trace (o : MasterOrchestrator) (elapsed : Nat)
    (ctx : AgentContext) (step : String) (rest : List String) (data : Payload)
    (cache : CacheState) (e : Event)
    (he : e ∈ (o.route_message elapsed cache (step_message o ctx step data)).2.2) :
    e ∈ (run_steps o elapsed ctx (step :: rest) data cache).2.2.2 := by
  rcases hr : o.route_message elapsed cache (step_message o ctx step data) with ⟨r, c', ev⟩
  rw [hr] at he
  by_cases hst : r.status = .error
  · rw [run_steps_cons_error o elapsed ctx step rest data cache r c' ev hr hst]
    exact he
  · rw [run_steps_cons_ok o elapsed ctx step rest data cache r c' ev hr hst]
    exact List.mem_append_left _ he

/-! ### Claim C4 -/

/-- Claim C4 confirmed: the working data starts as the initial data;
after a non-error first step with non-empty result `res1`, the envelope
delivered to the second step carries `dict.update data res1`, whose
lookup semantics overwrite keys of `res1` and preserve every other key
of the working data. -/
theorem c4_data_threading (o : MasterOrchestrator) (elapsed : Nat)
    (ctx : AgentContext) (cache : CacheState) (s1 s2 : String)
    (rest : List String) (data : Payload) (r1 : AgentResponse)
    (cache1 : CacheState) (ev1 : List Event) (res1 : Payload)
    (t2 : String) (a2 : BaseAgent)
    (h0 : o.route_message elapsed cache (step_message o ctx s1 data) = (r1, cache1, ev1))
    (h1 : r1.status ≠ .error)
    (h2 : r1.result = some res1) (h3 : res1 ≠ [])
    (h4 : dictGet o.routing_rules s2 = some t2)
    (h5 : dictGet o.agents t2 = some a2)
    (h6 : a2.can_handle s2 = true) :
    Event.process_call t2 (step_message o ctx s2 (Payload.update data res1)) ∈
      (run_steps o elapsed ctx (s1 :: s2 :: rest) data cache).2.2.2 ∧
    (∀ k, dictGet (Payload.update data res1) k =
      match dictGet res1 k with
      | some v => some v
      | none => dictGet data k) := by
  constructor
  · rw [run_steps_cons_ok o elapsed ctx s1 (s2 :: rest) data cache r1 cache1 ev1 h0 h1,
        merge_result_eq data r1 res1 h2 h3]
    refine List.mem_append_right _ ?_
    exact run_steps_head_trace o elapsed ctx s2 rest (Payload.update data res1) cache1 _
      (route_message_process_called o elapsed cache1
        (step_message o ctx s2 (Payload.update data res1)) t2 a2 h4 h5 h6)
  · intro k
    exact dictGet_update data res1 k

/-- Witness for `c4_data_threading`: initial data `{a: 1}`, onboarding
step 1 returns `{b: 2}`, and step 2's envelope payload is
`{a: 1, b: 2}`. -/
theorem c4_witness :
    Event.process_call "learning_path_agent"
        (step_message o4 ctx0 "generate_learning_path" [("a", 1), ("b", 2)]) ∈
      (run_steps o4 0 ctx0
        ["profile_analysis", "generate_learning_path", "curate_content"]
        [("a", 1)] []).2.2.2 ∧
    dictGet [("a", 1), ("b", 2)] "a" = some 1 ∧
    dictGet [("a", 1), ("b", 2)] "b" = some 2 :=
  ⟨(c4_data_threading o4 0 ctx0 [] "profile_analysis" "generate_learning_path"
      ["curate_content"] [("a", 1)]
      { agent_name := "profiling_agent", status := .completed,
        result := some [("b", 2)], execution_time := some 0 }
      [("response:profile_analysis", [("b", 2)])]
      [.can_handle_call "profiling_agent" "profile_analysis",
       .process_call "profiling_agent"
         (step_message o4 ctx0 "profile_analysis" [("a", 1)]),
       .cache_attempt "profile_analysis"]
      [("b", 2)] "learning_path_agent" pathgen_ok
      rfl (by decide) rfl (by decide) rfl rfl rfl).1,
   (c4_data_threading o4 0 ctx0 [] "profile_analysis" "generate_learning_path"
      ["curate_content"] [("a", 1)]
      { agent_name := "profiling_agent", status := .completed,
        result := some [("b", 2)], execution_time := some 0 }
      [("response:profile_analysis", [("b", 2)])]
      [.can_handle_call "profiling_agent" "profile_analysis",
       .process_call "profiling_agent"
         (step_message o4 ctx0 "profile_analysis" [("a", 1)]),
       .cache_attempt "profile_analysis"]
      [("b", 2)] "learning_path_agent" pathgen_ok
      rfl (by decide) rfl (by decide) rfl rfl rfl).2 "a",
   (c4_data_threading o4 0 ctx0 [] "profile_analysis" "generate_learning_path"
      ["curate_content"] [("a", 1)]
      { agent_name := "profiling_agent", status := .completed,
        result := some [("b", 2)], execution_time := some 0 }
      [("response:profile_analysis", [("b", 2)])]
      [.can_handle_call "profiling_agent" "profile_analysis",
       .process_call "profiling_agent"
         (step_message o4 ctx0 "profile_analysis" [("a", 1)]),
       .cache_attempt "profile_analysis"]
      [("b", 2)] "learning_path_agent" pathgen_ok
      rfl (by decide) rfl (by decide) rfl rfl rfl).2 "b"⟩

/-! ### Claim C5 -/

/-- If the first `pre` steps all produce non-error responses, the
number of responses equals the number of steps run. -/
theorem run_steps_length_of_no_error (o : MasterOrchestrator) (elapsed : Nat)
    (ctx : AgentContext) (steps : List String) :
    ∀ (data : Payload) (cache : CacheState) (rs : List AgentResponse)
      (d' : Payload) (c' : CacheState) (evs : List Event),
    run_steps o elapsed ctx steps data cache = (rs, d', c', evs) →
    (∀ x ∈ rs, x.status ≠ .error) →
    rs.length = steps.length := by
  induction steps with
  | nil =>
      intro data cache rs d' c' evs hrun hall
      simp only [run_steps, Prod.mk.injEq] at hrun
      obtain ⟨rfl, rfl, rfl, rfl⟩ := hrun
      rfl
  | cons s rest ih =>
      intro data cache rs d' c' evs hrun hall
      rcases hr0 : o.route_message elapsed cache (step_message o ctx s data) with ⟨r0, c0, ev0⟩
      by_cases h0 : r0.status = .error
      · rw [run_steps_cons_error o elapsed ctx s rest data cache r0 c0 ev0 hr0 h0] at hrun
        simp only [Prod.mk.injEq] at hrun
        obtain ⟨rfl, rfl, rfl, rfl⟩ := hrun
        exact absurd h0 (hall r0 (by simp))
      · rw [run_steps_cons_ok o elapsed ctx s rest data cache r0 c0 ev0 hr0 h0] at hrun
        rcases hX : run_steps o elapsed ctx rest (merge_result data r0) c0 with ⟨rs', d1, c1, evs'⟩
        rw [hX] at hrun
        simp only [Prod.mk.injEq] at hrun
        obtain ⟨rfl, rfl, rfl, rfl⟩ := hrun
        have hall' : ∀ x ∈ rs', x.status ≠ .error :=
          fun x hx => hall x (List.mem_cons_of_mem r0 hx)
        simp [ih (merge_result data r0) c0 rs' d1 c1 evs' hX hall']

/-- Running `pre ++ failStep :: post` when every response of the `pre`
prefix is non-error and routing `failStep` on the accumulated data
errors: the loop returns the prefix responses plus the failing one and
never reaches `post` (the trace is exactly that of the `pre` prefix and
the failing dispatch). -/
theorem run_steps_append_fail (o : MasterOrchestrator) (elapsed : Nat)
    (ctx : AgentContext) (pre : List String) :
    ∀ (failStep : String) (post : List String) (data : Payload)
      (cache : CacheState) (rs : List AgentResponse) (d' : Payload)
      (c' : CacheState) (evs : List Event) (r : AgentResponse)
      (c'' : CacheState) (ev : List Event),
    run_steps o elapsed ctx pre data cache = (rs, d', c', evs) →
    (∀ x ∈ rs, x.status ≠ .error) →
    o.route_message elapsed c' (step_message o ctx failStep d') = (r, c'', ev) →
    r.status = .error →
    run_steps o elapsed ctx (pre ++ failStep :: post) data cache =
      (rs ++ [r], d', c'', evs ++ ev) := by
  induction pre with
  | nil =>
      intro failStep post data cache rs d' c' evs r c'' ev hpre hall hfail herr
      simp only [run_steps, Prod.mk.injEq] at hpre
      obtain ⟨rfl, rfl, rfl, rfl⟩ := hpre
      rw [List.nil_append,
          run_steps_cons_error o elapsed ctx failStep post data cache r c'' ev hfail herr]
      simp
  | cons s pre' ih =>
      intro failStep post data cache rs d' c' evs r c'' ev hpre hall hfail herr
      rcases hr0 : o.route_message elapsed cache (step_message o ctx s data) with ⟨r0, c0, ev0⟩
      by_cases h0 : r0.status = .error
      · rw [run_steps_cons_error o elapsed ctx s pre' data cache r0 c0 ev0 hr0 h0] at hpre
        simp only [Prod.mk.injEq] at hpre
        obtain ⟨rfl, rfl, rfl, rfl⟩ := hpre
        exact absurd h0 (hall r0 (by simp))
      · rw [run_steps_cons_ok o elapsed ctx s pre' data cache r0 c0 ev0 hr0 h0] at hpre
        rcases hX : run_steps o elapsed ctx pre' (merge_result data r0) c0 with ⟨rs', d1, c1, evs'⟩
        rw [hX] at hpre
        simp only [Prod.mk.injEq] at hpre
        obtain ⟨rfl, rfl, rfl, rfl⟩ := hpre
        have hall' : ∀ x ∈ rs', x.status ≠ .error :=
          fun x hx => hall x (List.mem_cons_of_mem r0 hx)
        have hinner := ih failStep post (merge_result data r0) c0 rs' d1 c1 evs' r c'' ev
          hX hall' hfail herr
        rw [List.cons_append,
            run_steps_cons_ok o elapsed ctx s (pre' ++ failStep :: post) data cache
              r0 c0 ev0 hr0 h0,
            hinner]
        simp

/-- Claim C5 confirmed, for every known workflow and every failing
position: if the steps before some step all produce non-error outcomes
and that step's outcome is an Error, `execute_workflow` stops there,
returning the partial outcome list ending with the failing outcome (one
outcome per step actually run), and the trace is exactly that of the
dispatches up to the failure — no later step's provider is ever
invoked.  Instantiated at a 3-step workflow failing at step 2, this
yields exactly 2 outcomes. -/
theorem c5_short_circuit (o : MasterOrchestrator) (elapsed : Nat)
    (ctx : AgentContext) (cache : CacheState) (wname : String)
    (pre : List String) (failStep : String) (post : List String)
    (data : Payload) (rs : List AgentResponse) (d' : Payload)
    (c' : CacheState) (evs : List Event) (r : AgentResponse)
    (c'' : CacheState) (ev : List Event)
    (hw : dictGet o.workflows wname = some (pre ++ failStep :: post))
    (hpre : run_steps o elapsed ctx pre data cache = (rs, d', c', evs))
    (hall : ∀ x ∈ rs, x.status ≠ .error)
    (hfail : o.route_message elapsed c' (step_message o ctx failStep d') = (r, c'', ev))
    (herr : r.status = .error) :
    o.execute_workflow elapsed wname ctx data cache =
      .ok (rs ++ [r], d', c'', evs ++ ev) ∧
    rs.length = pre.length := by
  constructor
  · simp only [MasterOrchestrator.execute_workflow, hw]
    rw [run_steps_append_fail o elapsed ctx pre failStep post data cache rs d' c' evs
          r c'' ev hpre hall hfail herr]
  · exact run_steps_length_of_no_error o elapsed ctx pre data cache rs d' c' evs hpre hall

/-- Witness for `c5_short_circuit`: running the 3-step
`new_user_onboarding` on `o5`, whose second provider raises, yields
exactly 2 outcomes ending with the failing one. -/
theorem c5_witness :
    o5.execute_workflow 0 "new_user_onboarding" ctx0 [("a", 1)] [] =
      .ok ([{ agent_name := "profiling_agent", status := .completed,
              result := some [("b", 2)], execution_time := some 0 },
            { agent_name := "master_orchestrator", status := .error,
              error := some "Routing error: llm down" }],
           [("a", 1), ("b", 2)],
           [("response:profile_analysis", [("b", 2)])],
           [.can_handle_call "profiling_agent" "profile_analysis",
            .process_call "profiling_agent"
              (step_message o5 ctx0 "profile_analysis" [("a", 1)]),
            .cache_attempt "profile_analysis",
            .can_handle_call "learning_path_agent" "generate_learning_path",
            .process_call "learning_path_agent"
              (step_message o5 ctx0 "generate_learning_path" [("a", 1), ("b", 2)])]) :=
  (c5_short_circuit o5 0 ctx0 [] "new_user_onboarding"
    ["profile_analysis"] "generate_learning_path" ["curate_content"] [("a", 1)]
    [{ agent_name := "profiling_agent", status := .completed,
       result := some [("b", 2)], execution_time := some 0 }]
    [("a", 1), ("b", 2)]
    [("response:profile_analysis", [("b", 2)])]
    [.can_handle_call "profiling_agent" "profile_analysis",
     .process_call "profiling_agent"
       (step_message o5 ctx0 "profile_analysis" [("a", 1)]),
     .cache_attempt "profile_analysis"]
    { agent_name := "master_orchestrator", status := .error,
      error := some "Routing error: llm down" }
    [("response:profile_analysis", [("b", 2)])]
    [.can_handle_call "learning_path_agent" "generate_learning_path",
     .process_call "learning_path_agent"
       (step_message o5 ctx0 "generate_learning_path" [("a", 1), ("b", 2)])]
    rfl rfl (by decide) rfl rfl).1

/-! ### Claim C7 -/

/-- Claim C7, as stated, is false: in `o7`'s two-step workflow the first
outcome has status WAITING (not Completed), yet its result `{b: 2}` is
merged into the payload delivered to the second step. -/
theorem c7_counterexample :
    (run_steps o7 0 ctx0 ["profile_analysis", "generate_learning_path"]
        [("a", 1)] []).1 =
      [{ agent_name := "profiling_agent", status := .waiting,
         result := some [("b", 2)], execution_time := some 0 },
       { agent_name := "learning_path_agent", status := .completed,
         result := some [("path", 7)], execution_time := some 0 }] ∧
    Event.process_call "learning_path_agent"
        (step_message o7 ctx0 "generate_learning_path" [("a", 1), ("b", 2)]) ∈
      (run_steps o7 0 ctx0 ["profile_analysis", "generate_learning_path"]
        [("a", 1)] []).2.2.2 := by
  refine ⟨rfl, by decide⟩

/-- Claim C7 amended: a step outcome's non-empty result is merged into
the working data whenever its status is not Error — Completed is not the
only eligible status; e.g. a WAITING outcome also feeds the next step's
payload. -/
theorem c7_merge_on_any_non_error (o : MasterOrchestrator) (elapsed : Nat)
    (ctx : AgentContext) (cache : CacheState) (step : String)
    (rest : List String) (data : Payload) (r : AgentResponse)
    (c' : CacheState) (ev : List Event) (res : Payload)
    (h0 : o.route_message elapsed cache (step_message o ctx step data) = (r, c', ev))
    (h1 : r.status ≠ .error)
    (h2 : r.result = some res) (h3 : res ≠ []) :
    run_steps o elapsed ctx (step :: rest) data cache =
      (r :: (run_steps o elapsed ctx rest (Payload.update data res) c').1,
       (run_steps o elapsed ctx rest (Payload.update data res) c').2.1,
       (run_steps o elapsed ctx rest (Payload.update data res) c').2.2.1,
       ev ++ (run_steps o elapsed ctx rest (Payload.update data res) c').2.2.2) := by
  rw [run_steps_cons_ok o elapsed ctx step rest data cache r c' ev h0 h1,
      merge_result_eq data r res h2 h3]

/-- Witness for `c7_merge_on_any_non_error` at `o7`: the WAITING outcome
of step 1 feeds `{a: 1, b: 2}` into step 2. -/
theorem c7_witness :
    run_steps o7 0 ctx0 ["profile_analysis", "generate_learning_path"]
        [("a", 1)] [] =
      ([{ agent_name := "profiling_agent", status := .waiting,
          result := some [("b", 2)], execution_time := some 0 },
        { agent_name := "learning_path_agent", status := .completed,
          result := some [("path", 7)], execution_time := some 0 }],
       [("a", 1), ("b", 2), ("path", 7)],
       [("response:generate_learning_path", [("path", 7)])],
       [.can_handle_call "profiling_agent" "profile_analysis",
        .process_call "profiling_agent"
          (step_message o7 ctx0 "profile_analysis" [("a", 1)]),
        .can_handle_call "learning_path_agent" "generate_learning_path",
        .process_call "learning_path_agent"
          (step_message o7 ctx0 "generate_learning_path" [("a", 1), ("b", 2)]),
        .cache_attempt "generate_learning_path"]) :=
  c7_merge_on_any_non_error o7 0 ctx0 [] "profile_analysis"
    ["generate_learning_path"] [("a", 1)]
    { agent_name := "profiling_agent", status := .waiting,
      result := some [("b", 2)], execution_time := some 0 }
    []
    [.can_handle_call "profiling_agent" "profile_analysis",
     .process_call "profiling_agent"
       (step_message o7 ctx0 "profile_analysis" [("a", 1)])]
    [("b", 2)]
    rfl (by decide) rfl (by decide)

/-! ### Claim C8 -/

/-- Claim C8 confirmed: when the cache's set-with-TTL raises, `route`
still returns the provider's outcome (with its measured duration)
unchanged — the returned response is identical to the one produced with
a healthy cache, and no cache error is reported in it. -/
theorem c8_cache_isolation (o : MasterOrchestrator) (elapsed : Nat)
    (cache : CacheState) (m : AgentMessage) (tname : String)
    (agent : BaseAgent) (r : AgentResponse)
    (h1 : dictGet o.routing_rules m.message_type = some tname)
    (h2 : dictGet o.agents tname = some agent)
    (h3 : agent.can_handle m.message_type = true)
    (h4 : agent.process m = .ok r) :
    ({ o with cache_fails := true }.route_message elapsed cache m).1 =
      { r with execution_time := some elapsed } ∧
    ({ o with cache_fails := true }.route_message elapsed cache m).1 =
      ({ o with cache_fails := false }.route_message elapsed cache m).1 := by
  have hT := route_message_ok { o with cache_fails := true } elapsed cache m
    tname agent r h1 h2 h3 h4
  have hF := route_message_ok { o with cache_fails := false } elapsed cache m
    tname agent r h1 h2 h3 h4
  rw [hT, hF]
  exact ⟨rfl, rfl⟩

/-- Witness for `c8_cache_isolation` at `o3`, `msg0`. -/
theorem c8_witness :
    ({ o3 with cache_fails := true }.route_message 5 [] msg0).1 =
      { agent_name := "profiling_agent", status := .completed,
        result := some [("b", 2)], execution_time := some 5 } ∧
    ({ o3 with cache_fails := true }.route_message 5 [] msg0).1 =
      ({ o3 with cache_fails := false }.route_message 5 [] msg0).1 :=
  ⟨(c8_cache_isolation o3 5 [] msg0 "profiling_agent" profiler_ok
      { agent_name := "profiling_agent", status := .completed,
        result := some [("b", 2)] } rfl rfl rfl rfl).1,
   (c8_cache_isolation o3 5 [] msg0 "profiling_agent" profiler_ok
      { agent_name := "profiling_agent", status := .completed,
        result := some [("b", 2)] } rfl rfl rfl rfl).2⟩

/-! ### Claim C9 -/

/-- Claim C9 confirmed: a workflow name absent from the workflow table
makes `execute_workflow` raise `ValueError` (modelled as `Except.error`)
to the caller before any dispatch: no outcome list is produced and no
provider can have been invoked (the error value carries no responses and
no trace). -/
theorem c9_unknown_workflow_raises (o : MasterOrchestrator) (elapsed : Nat)
    (wname : String) (ctx : AgentContext) (data : Payload) (cache : CacheState)
    (h : dictGet o.workflows wname = none) :
    o.execute_workflow elapsed wname ctx data cache =
      .error ("Unknown workflow: " ++ wname) ∧
    ∀ res, o.execute_workflow elapsed wname ctx data cache ≠ .ok res := by
  have he : o.execute_workflow elapsed wname ctx data cache =
      .error ("Unknown workflow: " ++ wname) := by
    simp [MasterOrchestrator.execute_workflow, h]
  refine ⟨he, fun res hok => ?_⟩
  rw [he] at hok
  cases hok

/-- Witness for `c9_unknown_workflow_raises` at `o3` with the absent
workflow name `"nope"`. -/
theorem c9_witness :
    o3.execute_workflow 0 "nope" ctx0 [] [] = .error "Unknown workflow: nope" :=
  (c9_unknown_workflow_raises o3 0 "nope" ctx0 [] [] (by decide)).1

/-! ### Claim C10 -/

/-- Claim C10 confirmed: the router attempts a cache write only when the
returned outcome is COMPLETED with a truthy (present and non-empty)
result; in every other case — Error outcomes included — the cache is
left exactly as it was and no write is attempted. -/
theorem c10_cache_write_guard (o : MasterOrchestrator) (elapsed : Nat)
    (cache : CacheState) (m : AgentMessage) (r : AgentResponse)
    (cache' : CacheState) (ev : List Event)
    (h : o.route_message elapsed cache m = (r, cache', ev)) :
    (∀ t, Event.cache_attempt t ∈ ev →
      r.status = .completed ∧ truthy r.result = true) ∧
    (¬(r.status = .completed ∧ truthy r.result = true) → cache' = cache) := by
  unfold MasterOrchestrator.route_message at h
  split at h
  · simp only [Prod.mk.injEq] at h
    obtain ⟨rfl, rfl, rfl⟩ := h
    exact ⟨fun t ht => absurd ht (List.not_mem_nil _), fun _ => rfl⟩
  · split at h
    · simp only [Prod.mk.injEq] at h
      obtain ⟨rfl, rfl, rfl⟩ := h
      exact ⟨fun t ht => absurd ht (List.not_mem_nil _), fun _ => rfl⟩
    · split at h
      · simp only [Prod.mk.injEq] at h
        obtain ⟨rfl, rfl, rfl⟩ := h
        refine ⟨fun t ht => ?_, fun _ => rfl⟩
        simp at ht
      · split at h
        · simp only [Prod.mk.injEq] at h
          obtain ⟨rfl, rfl, rfl⟩ := h
          refine ⟨fun t ht => ?_, fun _ => rfl⟩
          simp at ht
        · simp only [MasterOrchestrator.cache_response] at h
          split at h
          · rename_i hcond
            split at h
            · simp only [Prod.mk.injEq] at h
              obtain ⟨rfl, rfl, rfl⟩ := h
              exact ⟨fun t _ => hcond, fun hn => absurd hcond hn⟩
            · simp only [Prod.mk.injEq] at h
              obtain ⟨rfl, rfl, rfl⟩ := h
              exact ⟨fun t _ => hcond, fun hn => absurd hcond hn⟩
          · rename_i hcond
            simp only [Prod.mk.injEq] at h
            obtain ⟨rfl, rfl, rfl⟩ := h
            refine ⟨fun t ht => ?_, fun _ => rfl⟩
            simp at ht

/-- Witness for `c10_cache_write_guard`: the trace of the successful
dispatch at `o3` contains a cache attempt, and indeed the returned
outcome is COMPLETED with a truthy result. -/
theorem c10_witness :
    (o3.route_message 5 [] msg0).1.status = .completed ∧
    truthy (o3.route_message 5 [] msg0).1.result = true :=
  (c10_cache_write_guard o3 5 [] msg0 (o3.route_message 5 [] msg0).1
      (o3.route_message 5 [] msg0).2.1 (o3.route_message 5 [] msg0).2.2
      rfl).1 "profile_analysis" (by decide)
